import Mathlib

/-!
Verification of `monitor-all-pairs-rotating.js` (rotating volume-spike monitor).

The JavaScript source is shallowly embedded: network calls (axios) become
explicit function parameters ("oracles"), the global mutable `state` object
becomes an explicit state value threaded through functions, JS numbers become
`ℚ` (for prices/volumes/thresholds) or `Nat` (for list indexes and counts),
and a JS statement that throws becomes an `Except.error` result.
-/

/-- Per-source slice of the global `state` object (lines 38-49):
`allSymbols`, `lastIndex`, `lastRun`. -/
structure SourceState where
  allSymbols : List String
  lastIndex : Nat
  lastRun : Nat
  deriving Repr, DecidableEq

/-- The global `state` object: one `SourceState` for binance, one for okx. -/
structure TwoState where
  binance : SourceState
  okx : SourceState
  deriving Repr, DecidableEq

/-- The `config` constants the monitoring logic reads (lines 6-35). -/
structure Config where
  hourSpikeThreshold : ℚ
  fourHourSpikeThreshold : ℚ
  hourMaThreshold : ℚ
  fourHourMaThreshold : ℚ
  minQuoteVolume : ℚ
  pairsPerRun : Nat
  deriving Repr, DecidableEq

/-- The concrete configuration values of the script. -/
def config : Config :=
  { hourSpikeThreshold := 8
    fourHourSpikeThreshold := 5
    hourMaThreshold := 8
    fourHourMaThreshold := 5
    minQuoteVolume := 1000000
    pairsPerRun := 10 }

/-- The list of indexes touched by one of the selection loops of
`getSymbolsForThisRun` (lines 237-246): for `i = 0 .. count-1` the loop
reads `symbols[(start + i) % n]` where `n` is the symbol-list length. -/
def usedIndexes (start count n : Nat) : List Nat :=
  (List.range count).map fun i => (start + i) % n

/-- One selection loop of `getSymbolsForThisRun` (lines 237-240 for binance,
243-246 for okx): pushes `symbols[(lastIndex + i) % symbols.length]` for
`i = 0 .. count-1`. The JS index expression never leaves the array when
`count ≤ symbols.length`, so the `getD` default is never reached. -/
def selectLoop (symbols : List String) (start count : Nat) : List String :=
  (usedIndexes start count symbols.length).map fun idx => symbols.getD idx ""

/-- The per-source batch selection of `getSymbolsForThisRun`: the requested
per-source share `b` is clamped to the list length with `Math.min`
(lines 217-224) and then the selection loop runs. -/
def selectBatch (symbols : List String) (start b : Nat) : List String :=
  selectLoop symbols start (min b symbols.length)

/-- `Math.ceil(B / 2)` for a natural `B`. -/
def ceilHalf (B : Nat) : Nat := (B + 1) / 2

/-- `getSymbolsForThisRun` (lines 212-249).  `binanceCount` and `okxCount`
are `const` bindings (lines 217-224); the shortfall-redistribution branch
(lines 228-234) assigns to them with `+=`, which in JavaScript throws
`TypeError: Assignment to constant variable.` at runtime.  A throwing
execution is embedded as `Except.error`. -/
def getSymbolsForThisRun (st : TwoState) (pairsPerRun : Nat) :
    Except String (List String × List String) :=
  let binanceCount := min (ceilHalf pairsPerRun) st.binance.allSymbols.length
  let okxCount := min (pairsPerRun / 2) st.okx.allSymbols.length
  let remaining := pairsPerRun - (binanceCount + okxCount)
  if 0 < remaining ∧ st.binance.allSymbols.length > binanceCount then
    Except.error "TypeError: Assignment to constant variable."
  else if 0 < remaining ∧ st.okx.allSymbols.length > okxCount then
    Except.error "TypeError: Assignment to constant variable."
  else
    Except.ok
      (selectLoop st.binance.allSymbols st.binance.lastIndex binanceCount,
       selectLoop st.okx.allSymbols st.okx.lastIndex okxCount)

/-- `updateStateIndexes` (lines 252-260): advances each source's `lastIndex`
by the number of symbols consumed, modulo the list length, guarded by
`length > 0`. -/
def updateStateIndexes (st : TwoState) (binanceCount okxCount : Nat) : TwoState :=
  { binance :=
      if 0 < st.binance.allSymbols.length then
        { st.binance with
          lastIndex := (st.binance.lastIndex + binanceCount) % st.binance.allSymbols.length }
      else st.binance
    okx :=
      if 0 < st.okx.allSymbols.length then
        { st.okx with
          lastIndex := (st.okx.lastIndex + okxCount) % st.okx.allSymbols.length }
      else st.okx }

section Helpers

/-- Indexing into `(List.range n).map f` below the length yields `f i`. -/
theorem range_map_get? {α : Type} (f : Nat → α) (n i : Nat) (h : i < n) :
    ((List.range n).map f).get? i = some (f i) := by
  rw [List.get?_map, List.get?_range h]; rfl

/-- In-bounds `getD` agrees with `get?`. -/
theorem get?_eq_some_getD {α : Type} (l : List α) (i : Nat) (d : α)
    (h : i < l.length) : l.get? i = some (l.getD i d) := by
  rw [List.getD_eq_get?]
  cases hq : l.get? i with
  | none => exact absurd (List.get?_eq_none.mp hq) (Nat.not_le.mpr h)
  | some a => rfl

end Helpers

/-- A single-source run in the sense of the end-to-end scenario: select the
batch, then advance the cursor exactly as `updateStateIndexes` does for a
state whose other source is empty. -/
def runOnce (st : TwoState) (b : Nat) : List String × TwoState :=
  let batch := selectBatch st.binance.allSymbols st.binance.lastIndex b
  (batch, updateStateIndexes st batch.length 0)

/-- Scenario start state: single source with universe `[A,B,C,D]`, cursor 0. -/
def scenarioState : TwoState :=
  { binance := { allSymbols := ["A", "B", "C", "D"], lastIndex := 0, lastRun := 0 }
    okx := { allSymbols := [], lastIndex := 0, lastRun := 0 } }

/-- C1: for a source with `N ≥ 1` symbols, cursor `k` and per-source share
`b`, the batch selection picks exactly `min b N` symbols, the `i`-th being
the symbol at position `(k + i) % N`; and for the single-source universe
`[A,B,C,D]` with share 2 and cursor 0, three consecutive runs select
`[A,B]` (cursor 2), then `[C,D]` (cursor 0, wrapped), then `[A,B]` again. -/
theorem getSymbolsForThisRun_rotating_selection
    (symbols : List String) (k b : Nat) (h : 1 ≤ symbols.length) :
    ((selectBatch symbols k b).length = min b symbols.length ∧
      ∀ i, i < min b symbols.length →
        (selectBatch symbols k b).get? i = symbols.get? ((k + i) % symbols.length)) ∧
    ((runOnce scenarioState 2).1 = ["A", "B"] ∧
      ((runOnce scenarioState 2).2).binance.lastIndex = 2 ∧
      (runOnce (runOnce scenarioState 2).2 2).1 = ["C", "D"] ∧
      ((runOnce (runOnce scenarioState 2).2 2).2).binance.lastIndex = 0 ∧
      (runOnce (runOnce (runOnce scenarioState 2).2 2).2 2).1 = ["A", "B"]) := by
  constructor
  · constructor
    · simp [selectBatch, selectLoop, usedIndexes]
    · intro i hi
      have hidx : (k + i) % symbols.length < symbols.length :=
        Nat.mod_lt _ (Nat.lt_of_lt_of_le Nat.zero_lt_one h)
      unfold selectBatch selectLoop usedIndexes
      rw [List.map_map, range_map_get? _ _ _ hi]
      exact (get?_eq_some_getD symbols _ "" hidx).symm
  · refine ⟨by decide, by decide, by decide, by decide, by decide⟩

/-- Witness for C1 at a concrete input. -/
theorem getSymbolsForThisRun_rotating_selection_witness :
    (selectBatch ["A", "B", "C", "D"] 3 2).get? 1 =
      (["A", "B", "C", "D"] : List String).get? ((3 + 1) % 4) :=
  ((getSymbolsForThisRun_rotating_selection ["A", "B", "C", "D"] 3 2
    (by decide)).1.2) 1 (by decide)

/-- Every `ok` result of `getSymbolsForThisRun` is a pair of selection loops
with counts clamped to the list lengths (the redistribution branch never
reaches the loops: it throws). -/
theorem getSymbolsForThisRun_ok (st : TwoState) (B : Nat)
    (bs os : List String) (h : getSymbolsForThisRun st B = .ok (bs, os)) :
    bs = selectLoop st.binance.allSymbols st.binance.lastIndex
          (min (ceilHalf B) st.binance.allSymbols.length) ∧
    os = selectLoop st.okx.allSymbols st.okx.lastIndex
          (min (B / 2) st.okx.allSymbols.length) := by
  unfold getSymbolsForThisRun at h
  dsimp only at h
  split at h
  · exact absurd h (by simp)
  · split at h
    · exact absurd h (by simp)
    · simp only [Except.ok.injEq, Prod.mk.injEq] at h
      exact ⟨h.1.symm, h.2.symm⟩

/-- C2: for each source, when the symbol list is nonempty every index used
by the selection loop is in `[0, N)` and `updateStateIndexes` leaves the
cursor in `[0, N)`; when the symbol list is empty, any completed run selects
an empty batch for that source and `updateStateIndexes` leaves its
`lastIndex` unchanged. -/
theorem cursor_invariants (st : TwoState) (B cnt bCnt oCnt : Nat) :
    ((0 < st.binance.allSymbols.length →
        (∀ idx ∈ usedIndexes st.binance.lastIndex cnt st.binance.allSymbols.length,
          idx < st.binance.allSymbols.length) ∧
        (updateStateIndexes st bCnt oCnt).binance.lastIndex <
          st.binance.allSymbols.length) ∧
      (st.binance.allSymbols.length = 0 →
        (∀ bs os, getSymbolsForThisRun st B = .ok (bs, os) → bs = []) ∧
        (updateStateIndexes st bCnt oCnt).binance.lastIndex = st.binance.lastIndex)) ∧
    ((0 < st.okx.allSymbols.length →
        (∀ idx ∈ usedIndexes st.okx.lastIndex cnt st.okx.allSymbols.length,
          idx < st.okx.allSymbols.length) ∧
        (updateStateIndexes st bCnt oCnt).okx.lastIndex <
          st.okx.allSymbols.length) ∧
      (st.okx.allSymbols.length = 0 →
        (∀ bs os, getSymbolsForThisRun st B = .ok (bs, os) → os = []) ∧
        (updateStateIndexes st bCnt oCnt).okx.lastIndex = st.okx.lastIndex)) := by
  refine ⟨⟨fun hpos => ⟨?_, ?_⟩, fun hzero => ⟨?_, ?_⟩⟩,
          ⟨fun hpos => ⟨?_, ?_⟩, fun hzero => ⟨?_, ?_⟩⟩⟩
  · intro idx hidx
    simp only [usedIndexes, List.mem_map, List.mem_range] at hidx
    obtain ⟨i, _, rfl⟩ := hidx
    exact Nat.mod_lt _ hpos
  · simp only [updateStateIndexes, if_pos hpos]
    exact Nat.mod_lt _ hpos
  · intro bs os hok
    have h := (getSymbolsForThisRun_ok st B bs os hok).1
    rw [h, hzero]
    simp [selectLoop, usedIndexes]
  · simp [updateStateIndexes, hzero]
  · intro idx hidx
    simp only [usedIndexes, List.mem_map, List.mem_range] at hidx
    obtain ⟨i, _, rfl⟩ := hidx
    exact Nat.mod_lt _ hpos
  · simp only [updateStateIndexes, if_pos hpos]
    exact Nat.mod_lt _ hpos
  · intro bs os hok
    have h := (getSymbolsForThisRun_ok st B bs os hok).2
    rw [h, hzero]
    simp [selectLoop, usedIndexes]
  · simp [updateStateIndexes, hzero]

/-- Witness for C2 at a concrete state: binance nonempty, okx empty. -/
theorem cursor_invariants_witness :
    (updateStateIndexes scenarioState 7 3).binance.lastIndex < 4 ∧
    (updateStateIndexes scenarioState 7 3).okx.lastIndex = 0 :=
  ⟨((cursor_invariants scenarioState 10 5 7 3).1.1 (by decide)).2,
   ((cursor_invariants scenarioState 10 5 7 3).2.2 (by decide)).2⟩

/-- C4 (code bug): when one source has fewer symbols than its configured
share and the other has spare symbols, `getSymbolsForThisRun` does not
redistribute the shortfall — the `+=` on the `const` binding throws a
`TypeError`, so the run errors instead of producing a `B`-symbol batch.
Concrete failing input: binance has 3 symbols, okx has 6, `pairsPerRun = 10`. -/
theorem getSymbolsForThisRun_shortfall_throws :
    getSymbolsForThisRun
      { binance := { allSymbols := ["B1", "B2", "B3"], lastIndex := 0, lastRun := 0 }
        okx := { allSymbols := ["O1", "O2", "O3", "O4", "O5", "O6"],
                 lastIndex := 0, lastRun := 0 } }
      config.pairsPerRun =
      Except.error "TypeError: Assignment to constant variable." := by
  rfl

/-- One OHLCV candle — the record built in `getKlineData` (lines 323-331,
336-344) and `getDailyKline` (lines 420-428, 434-442).  The JS field `open`
is called `openP` here because `open` is a Lean keyword. -/
structure Candle where
  time : ℚ
  openP : ℚ
  high : ℚ
  low : ℚ
  close : ℚ
  volume : ℚ
  quoteVolume : ℚ
  deriving Repr, DecidableEq

/-- Out-of-bounds default for array reads; the detectors only index in
bounds, so it is never observed. -/
def defaultCandle : Candle :=
  { time := 0, openP := 0, high := 0, low := 0, close := 0, volume := 0, quoteVolume := 0 }

/-- The anomaly record returned by `detectSpike` / `detectMASpike`
(lines 363-370, 392-399). -/
structure Finding where
  type : String
  price : ℚ
  timestamp : ℚ
  currentVolume : ℚ
  compareValue : ℚ
  ratio : ℚ
  deriving Repr, DecidableEq

/-- `detectSpike` (lines 349-373).  The JS `!data` null-guard has no
counterpart: a Lean list is never null. -/
def detectSpike (data : List Candle) (threshold : ℚ) (ty : String) : Option Finding :=
  if data.length < 2 then none
  else
    let current := data.getD (data.length - 1) defaultCandle
    let previous := data.getD (data.length - 2) defaultCandle
    if current.volume ≤ 0 ∨ previous.volume ≤ 0 then none
    else
      let ratio := current.volume / previous.volume
      if threshold ≤ ratio then
        some { type := ty, price := current.close, timestamp := current.time,
               currentVolume := current.volume, compareValue := previous.volume,
               ratio := ratio }
      else none

/-- `calculateMA` (lines 405-410):
`data.slice(period-1).map((_, i) => sum(data.slice(i, i+period)) / period)`.
The JS callback ignores the element and uses only the index, so it is
embedded as a map over `List.range` of the sliced length. -/
def calculateMA (data : List ℚ) (period : Nat) : List ℚ :=
  (List.range (data.drop (period - 1)).length).map fun i =>
    ((data.drop i).take period).sum / (period : ℚ)

/-- `detectMASpike` (lines 376-402). -/
def detectMASpike (data : List Candle) (threshold : ℚ) (ty : String) : Option Finding :=
  if data.length < 21 then none
  else
    let volumes := data.map fun d => d.volume
    let current := volumes.getD (volumes.length - 1) 0
    let maValues := calculateMA volumes 20
    let ma := maValues.getD (maValues.length - 1) 0
    if current ≤ 0 ∨ ma ≤ 0 then none
    else
      let ratio := current / ma
      if threshold ≤ ratio then
        some { type := ty,
               price := (data.getD (data.length - 1) defaultCandle).close,
               timestamp := (data.getD (data.length - 1) defaultCandle).time,
               currentVolume := current, compareValue := ma, ratio := ratio }
      else none

/-- The current volume as `detectMASpike` reads it: last entry of the
volume list. -/
def curVolume (data : List Candle) : ℚ :=
  (data.map fun d => d.volume).getD (data.length - 1) 0

/-- Sum of the volumes of the trailing 20 candles (up to and including the
last candle). -/
def trailingSum20 (data : List Candle) : ℚ :=
  ((data.map fun d => d.volume).drop (data.length - 20)).sum

/-- Arithmetic mean of the volumes of the trailing 20 candles, current
candle included. -/
def trailingMean20 (data : List Candle) : ℚ :=
  trailingSum20 data / 20

/-- Indexing into `(List.range n).map f` below the length with a default
yields `f i`. -/
theorem range_map_getD {α : Type} (f : Nat → α) (n i : Nat) (d : α) (h : i < n) :
    ((List.range n).map f).getD i d = f i := by
  rw [List.getD_eq_get?, range_map_get? f n i h]
  rfl

/-- The last moving average produced by `calculateMA _ 20` is the mean of
the last 20 entries. -/
theorem calculateMA_last (vs : List ℚ) (h : 20 ≤ vs.length) :
    (calculateMA vs 20).getD ((calculateMA vs 20).length - 1) 0 =
      (vs.drop (vs.length - 20)).sum / 20 := by
  have hlen : (calculateMA vs 20).length = vs.length - 19 := by
    simp [calculateMA]
  rw [hlen]
  have hidx : vs.length - 19 - 1 = vs.length - 20 := by omega
  rw [hidx]
  unfold calculateMA
  rw [range_map_getD]
  · have hdlen : (vs.drop (vs.length - 20)).length = 20 := by
      rw [List.length_drop]; omega
    rw [List.take_of_length_le (le_of_eq hdlen)]
    norm_num
  · rw [List.length_drop]; omega

/-- The moving-average value `detectMASpike` reads (last element of
`calculateMA(volumes, 20)`, lines 381-382). -/
def lastMA (data : List Candle) : ℚ :=
  let volumes := data.map fun d => d.volume
  let maValues := calculateMA volumes 20
  maValues.getD (maValues.length - 1) 0

/-- The moving average used by `detectMASpike` is the mean of the trailing
20 volumes, current candle included. -/
theorem lastMA_eq_trailingMean20 (data : List Candle) (h : 20 ≤ data.length) :
    lastMA data = trailingMean20 data := by
  unfold lastMA
  dsimp only
  rw [calculateMA_last]
  · unfold trailingMean20 trailingSum20
    rw [List.length_map]
  · rw [List.length_map]; omega

/-- Branch analysis of `detectSpike` for series of length at least two. -/
theorem detectSpike_isSome_iff (data : List Candle) (t : ℚ) (ty : String)
    (h : 2 ≤ data.length) :
    ((detectSpike data t ty).isSome = true) ↔
      (0 < (data.getD (data.length - 1) defaultCandle).volume ∧
       0 < (data.getD (data.length - 2) defaultCandle).volume ∧
       t ≤ (data.getD (data.length - 1) defaultCandle).volume /
           (data.getD (data.length - 2) defaultCandle).volume) := by
  unfold detectSpike
  rw [if_neg (Nat.not_lt.mpr h)]
  dsimp only
  by_cases hg : (data.getD (data.length - 1) defaultCandle).volume ≤ 0 ∨
      (data.getD (data.length - 2) defaultCandle).volume ≤ 0
  · rw [if_pos hg]
    simp only [Option.isSome_none, Bool.false_eq_true, false_iff]
    rintro ⟨h1, h2, -⟩
    rcases hg with hg | hg
    · exact absurd h1 (not_lt.mpr hg)
    · exact absurd h2 (not_lt.mpr hg)
  · rw [if_neg hg]
    push_neg at hg
    by_cases hr : t ≤ (data.getD (data.length - 1) defaultCandle).volume /
        (data.getD (data.length - 2) defaultCandle).volume
    · rw [if_pos hr]
      simp only [Option.isSome_some, true_iff]
      exact ⟨hg.1, hg.2, hr⟩
    · rw [if_neg hr]
      simp only [Option.isSome_none, Bool.false_eq_true, false_iff]
      rintro ⟨-, -, hr'⟩
      exact hr hr'

/-- Branch analysis of `detectMASpike` for series of length at least 21. -/
theorem detectMASpike_isSome_iff (data : List Candle) (t : ℚ) (ty : String)
    (h : 21 ≤ data.length) :
    ((detectMASpike data t ty).isSome = true) ↔
      (0 < curVolume data ∧ 0 < trailingMean20 data ∧
        t ≤ curVolume data / trailingMean20 data) := by
  have hma : (calculateMA (data.map fun d => d.volume) 20).getD
      ((calculateMA (data.map fun d => d.volume) 20).length - 1) 0 =
      trailingMean20 data := lastMA_eq_trailingMean20 data (by omega)
  have hcv : (data.map fun d => d.volume).getD
      ((data.map fun d => d.volume).length - 1) 0 = curVolume data := by
    unfold curVolume
    rw [List.length_map]
  unfold detectMASpike
  rw [if_neg (Nat.not_lt.mpr h)]
  dsimp only
  rw [hma, hcv]
  by_cases hg : curVolume data ≤ 0 ∨ trailingMean20 data ≤ 0
  · rw [if_pos hg]
    simp only [Option.isSome_none, Bool.false_eq_true, false_iff]
    rintro ⟨h1, h2, -⟩
    rcases hg with hg | hg
    · exact absurd h1 (not_lt.mpr hg)
    · exact absurd h2 (not_lt.mpr hg)
  · rw [if_neg hg]
    push_neg at hg
    by_cases hr : t ≤ curVolume data / trailingMean20 data
    · rw [if_pos hr]
      simp only [Option.isSome_some, true_iff]
      exact ⟨hg.1, hg.2, hr⟩
    · rw [if_neg hr]
      simp only [Option.isSome_none, Bool.false_eq_true, false_iff]
      rintro ⟨-, -, hr'⟩
      exact hr hr'

/-- Series of fewer than 21 candles never produce a moving-average
finding. -/
theorem detectMASpike_short (data : List Candle) (t : ℚ) (ty : String)
    (h : data.length < 21) : detectMASpike data t ty = none := by
  unfold detectMASpike
  rw [if_pos h]

/-- Two-candle series with previous volume `p` and current volume `c`. -/
def pairData (p c : ℚ) : List Candle :=
  [{ defaultCandle with volume := p, close := 2 },
   { defaultCandle with volume := c, close := 2 }]

/-- C6: for series of length at least two, `detectSpike` fires exactly when
the last and second-to-last volumes are both strictly positive and their
ratio is at least the threshold; in particular an 8-fold jump fires at
threshold 8, a 7.999-fold jump does not, and a zero or negative volume never
fires at any threshold. -/
theorem detectSpike_ratio_boundary (data : List Candle) (t : ℚ) (ty : String)
    (h : 2 ≤ data.length) :
    (((detectSpike data t ty).isSome = true) ↔
      (0 < (data.getD (data.length - 1) defaultCandle).volume ∧
       0 < (data.getD (data.length - 2) defaultCandle).volume ∧
       t ≤ (data.getD (data.length - 1) defaultCandle).volume /
           (data.getD (data.length - 2) defaultCandle).volume)) ∧
    ((detectSpike (pairData 1 8) 8 "hour").isSome = true) ∧
    (detectSpike (pairData 1 (7999 / 1000)) 8 "hour" = none) ∧
    (∀ t2 : ℚ, detectSpike (pairData 1 0) t2 "hour" = none) ∧
    (∀ t2 : ℚ, detectSpike (pairData (-3) 5) t2 "hour" = none) := by
  refine ⟨detectSpike_isSome_iff data t ty h, ?_, ?_,
    fun t2 => ?_, fun t2 => ?_⟩
  · rw [detectSpike_isSome_iff _ _ _ (by norm_num [pairData])]
    rw [show ((pairData 1 8).getD ((pairData 1 8).length - 1) defaultCandle).volume
          = (8 : ℚ) from rfl,
        show ((pairData 1 8).getD ((pairData 1 8).length - 2) defaultCandle).volume
          = (1 : ℚ) from rfl]
    norm_num
  · rw [← Option.not_isSome_iff_eq_none,
        detectSpike_isSome_iff _ _ _ (by norm_num [pairData])]
    rw [show ((pairData 1 (7999 / 1000)).getD ((pairData 1 (7999 / 1000)).length - 1)
            defaultCandle).volume = (7999 / 1000 : ℚ) from rfl,
        show ((pairData 1 (7999 / 1000)).getD ((pairData 1 (7999 / 1000)).length - 2)
            defaultCandle).volume = (1 : ℚ) from rfl]
    norm_num
  · unfold detectSpike
    norm_num [pairData, defaultCandle]
  · unfold detectSpike
    norm_num [pairData, defaultCandle]

/-- Witness for C6 at a concrete two-candle series. -/
theorem detectSpike_ratio_boundary_witness :
    ((detectSpike (pairData 2 16) 8 "hour").isSome = true) ↔
      (0 < ((pairData 2 16).getD ((pairData 2 16).length - 1) defaultCandle).volume ∧
       0 < ((pairData 2 16).getD ((pairData 2 16).length - 2) defaultCandle).volume ∧
       (8 : ℚ) ≤ ((pairData 2 16).getD ((pairData 2 16).length - 1) defaultCandle).volume /
           ((pairData 2 16).getD ((pairData 2 16).length - 2) defaultCandle).volume) :=
  (detectSpike_ratio_boundary (pairData 2 16) 8 "hour" (by decide)).1

/-- C7: for series of length at least 21, the moving average used by
`detectMASpike` is the arithmetic mean of the trailing 20 volumes ending at
and including the current candle, and a finding is emitted exactly when the
current volume and that mean are strictly positive and their ratio reaches
the threshold; for shorter series the result is `none` (no error). -/
theorem detectMASpike_trailing_window (data : List Candle) (t : ℚ) (ty : String) :
    (21 ≤ data.length →
      lastMA data = trailingMean20 data ∧
      (((detectMASpike data t ty).isSome = true) ↔
        (0 < curVolume data ∧ 0 < trailingMean20 data ∧
          t ≤ curVolume data / trailingMean20 data))) ∧
    (data.length < 21 → detectMASpike data t ty = none) := by
  constructor
  · intro h
    exact ⟨lastMA_eq_trailingMean20 data (by omega),
      detectMASpike_isSome_iff data t ty h⟩
  · intro h
    exact detectMASpike_short data t ty h

/-- A 21-candle series of constant volume 3. -/
def flatData : List Candle :=
  List.replicate 21 { defaultCandle with volume := 3 }

/-- Witness for C7 at a concrete 21-candle series. -/
theorem detectMASpike_trailing_window_witness :
    lastMA flatData = trailingMean20 flatData :=
  ((detectMASpike_trailing_window flatData 8 "hour-ma").1 (by decide)).1

/-- C8: with `S` the sum of the trailing 20 volumes, a current volume equal
to `threshold * (S/20)` makes `detectMASpike` fire exactly at the threshold,
and a current volume strictly below `threshold * (S/20)` yields no
finding. -/
theorem detectMASpike_ma_boundary (data : List Candle) (t : ℚ) (ty : String)
    (h21 : 21 ≤ data.length) (ht : 0 < t) :
    (0 < curVolume data → curVolume data * 20 = t * trailingSum20 data →
      (detectMASpike data t ty).isSome = true) ∧
    (curVolume data * 20 < t * trailingSum20 data →
      detectMASpike data t ty = none) := by
  constructor
  · intro hc heq
    rw [detectMASpike_isSome_iff data t ty h21]
    have hS : 0 < trailingSum20 data := by nlinarith
    have hmean : 0 < trailingMean20 data := by
      unfold trailingMean20; positivity
    refine ⟨hc, hmean, ?_⟩
    rw [le_div_iff hmean]
    unfold trailingMean20
    linarith
  · intro hlt
    rw [← Option.not_isSome_iff_eq_none]
    intro hsome
    rw [detectMASpike_isSome_iff data t ty h21] at hsome
    obtain ⟨hc, hmean, hr⟩ := hsome
    rw [le_div_iff hmean] at hr
    unfold trailingMean20 at hr
    linarith

/-- A 21-candle series whose trailing 20 volumes sum to 38 and whose
current volume 19 sits exactly at threshold 10. -/
def boundaryData : List Candle :=
  ({ defaultCandle with volume := 7 } ::
    List.replicate 19 { defaultCandle with volume := 1 }) ++
    [{ defaultCandle with volume := 19 }]

/-- The trailing 20 volumes of `boundaryData` sum to 38. -/
theorem boundaryData_sum : trailingSum20 boundaryData = 38 := by
  have h1 : (boundaryData.map fun d => d.volume) =
      (7 : ℚ) :: (List.replicate 19 (1 : ℚ) ++ [(19 : ℚ)]) := by
    simp [boundaryData, defaultCandle]
  have h2 : boundaryData.length = 21 := by simp [boundaryData]
  unfold trailingSum20
  rw [h1, h2]
  norm_num [List.sum_append, List.sum_replicate, nsmul_eq_mul]

/-- Witness for C8 at a concrete 21-candle series. -/
theorem detectMASpike_ma_boundary_witness :
    (detectMASpike boundaryData 10 "hour-ma").isSome = true :=
  (detectMASpike_ma_boundary boundaryData 10 "hour-ma" (by decide)
    (by norm_num)).1
    (by rw [show curVolume boundaryData = (19 : ℚ) from rfl]; norm_num)
    (by rw [show curVolume boundaryData = (19 : ℚ) from rfl, boundaryData_sum]
        norm_num)

/-- One entry of the Binance `exchangeInfo` response's `symbols` array, with
the fields `getBinanceSymbols` reads. -/
structure BinanceSymbolInfo where
  symbol : String
  contractType : String
  status : String
  deriving Repr, DecidableEq

/-- One entry of the OKX instruments response's `data` array, with the
fields `getOKXSymbols` reads. -/
structure OkxInstrument where
  instId : String
  instType : String
  state : String
  deriving Repr, DecidableEq

/-- `getBinanceSymbols` (lines 187-197): on a successful response, filter to
trading perpetuals and project the symbol name; the `catch` returns `[]`.
The HTTP call is embedded as an `Except`-valued argument. -/
def getBinanceSymbols (resp : Except Unit (List BinanceSymbolInfo)) : List String :=
  match resp with
  | .error _ => []
  | .ok syms =>
      (syms.filter fun s => s.contractType == "PERPETUAL" && s.status == "TRADING").map
        fun s => s.symbol

/-- `getOKXSymbols` (lines 199-209): on a successful response, filter to
live swaps and project the instrument id; the `catch` returns `[]`. -/
def getOKXSymbols (resp : Except Unit (List OkxInstrument)) : List String :=
  match resp with
  | .error _ => []
  | .ok insts =>
      (insts.filter fun i => i.instType == "SWAP" && i.state == "live").map
        fun i => i.instId

/-- `getAllSymbols` (lines 175-185): unconditionally replaces both cached
symbol lists with the fetch results and stamps `lastRun` with the current
time. -/
def getAllSymbols (st : TwoState) (now : Nat)
    (bResp : Except Unit (List BinanceSymbolInfo))
    (oResp : Except Unit (List OkxInstrument)) : TwoState :=
  { binance := { allSymbols := getBinanceSymbols bResp
                 lastIndex := st.binance.lastIndex, lastRun := now }
    okx := { allSymbols := getOKXSymbols oResp
             lastIndex := st.okx.lastIndex, lastRun := now } }

/-- A state holding a previously cached universe for both sources. -/
def cachedState : TwoState :=
  { binance := { allSymbols := ["BTCUSDT"], lastIndex := 0, lastRun := 5 }
    okx := { allSymbols := ["BTC-USDT-SWAP"], lastIndex := 0, lastRun := 5 } }

/-- C5 counterexample: a failed Binance fetch does not leave the previous
cache in place — `getBinanceSymbols` returns `[]` from its `catch` and
`getAllSymbols` overwrites the cached list with it. -/
theorem refresh_failure_discards_cache :
    (getAllSymbols cachedState 99 (Except.error ()) (Except.ok [])).binance.allSymbols
        = [] ∧
    cachedState.binance.allSymbols = ["BTCUSDT"] ∧
    ([] : List String) ≠ ["BTCUSDT"] :=
  ⟨rfl, rfl, by decide⟩

/-- C5 amended: when the instrument fetch for a source fails, the refresh
completes without raising, but it replaces that source's cached symbol list
with the empty list (the previous cache is discarded, not kept stale). -/
theorem refresh_failure_empties_cache (st : TwoState) (now : Nat)
    (bResp : Except Unit (List BinanceSymbolInfo))
    (oResp : Except Unit (List OkxInstrument)) :
    (getAllSymbols st now (Except.error ()) oResp).binance.allSymbols = [] ∧
    (getAllSymbols st now bResp (Except.error ())).okx.allSymbols = [] :=
  ⟨rfl, rfl⟩

/-- An upstream response whose symbols are not in lexicographic order. -/
def unsortedResp : List BinanceSymbolInfo :=
  [{ symbol := "BBBUSDT", contractType := "PERPETUAL", status := "TRADING" },
   { symbol := "AAAUSDT", contractType := "PERPETUAL", status := "TRADING" }]

/-- Executable lexicographic comparison on character lists. -/
def lexLeChars : List Char → List Char → Bool
  | [], _ => true
  | _ :: _, [] => false
  | a :: as, b :: bs => if a < b then true else if b < a then false else lexLeChars as bs

/-- A string list is lexicographically sorted when every adjacent pair is
in `lexLeChars` order. -/
def lexSorted : List String → Bool
  | [] => true
  | [_] => true
  | a :: b :: rest => lexLeChars a.data b.data && lexSorted (b :: rest)

/-- C9 counterexample: a successful refresh stores the upstream order
verbatim — no sort is applied, so the stored list need not be
lexicographically sorted, and reversing the upstream response (the same
universe) changes the stored list. -/
theorem refresh_does_not_sort :
    getBinanceSymbols (Except.ok unsortedResp) = ["BBBUSDT", "AAAUSDT"] ∧
    lexSorted (getBinanceSymbols (Except.ok unsortedResp)) = false ∧
    getBinanceSymbols (Except.ok unsortedResp.reverse) ≠
      getBinanceSymbols (Except.ok unsortedResp) :=
  ⟨rfl, by decide, by decide⟩

/-- C9 amended: after a successful refresh the stored symbol list is the
order-preserving filter-and-project of the upstream response (a sublist of
the projected response, hence stable whenever the upstream order is), and
membership is exactly the live/tradable filter; no sorting is applied. -/
theorem refresh_preserves_upstream_order (l : List BinanceSymbolInfo)
    (li : List OkxInstrument) :
    (getBinanceSymbols (Except.ok l)).Sublist (l.map fun s => s.symbol) ∧
    (getOKXSymbols (Except.ok li)).Sublist (li.map fun i => i.instId) ∧
    (∀ x, x ∈ getBinanceSymbols (Except.ok l) ↔
      ∃ s ∈ l, s.contractType = "PERPETUAL" ∧ s.status = "TRADING" ∧ s.symbol = x) ∧
    (∀ x, x ∈ getOKXSymbols (Except.ok li) ↔
      ∃ i ∈ li, i.instType = "SWAP" ∧ i.state = "live" ∧ i.instId = x) := by
  refine ⟨(List.filter_sublist _).map _, (List.filter_sublist _).map _, ?_, ?_⟩
  · intro x
    simp [getBinanceSymbols, List.mem_filter, and_assoc]
  · intro x
    simp [getOKXSymbols, List.mem_filter, and_assoc]

/-- A spike as pushed by `checkExchange` (lines 284, 291, 298, 305): the
detector's finding with `dailyQuoteVolume` set, spread together with the
exchange and symbol names. -/
structure ReportedSpike where
  finding : Finding
  dailyQuoteVolume : ℚ
  exchange : String
  symbol : String
  deriving Repr, DecidableEq

/-- One `if (spike) { spike.dailyQuoteVolume = ...; spikes.push({...}) }`
block of `checkExchange`. -/
def pushSpike (o : Option Finding) (dqv : ℚ) (exchange symbol : String) :
    List ReportedSpike :=
  match o with
  | some f => [{ finding := f, dailyQuoteVolume := dqv, exchange := exchange,
                 symbol := symbol }]
  | none => []

/-- The liquidity pre-filter condition of `checkExchange` (line 276):
`dailyData && dailyData.quoteVolume < config.minQuoteVolume`. -/
def belowFloor (cfg : Config) (dailyData : Option Candle) : Bool :=
  match dailyData with
  | some d => decide (d.quoteVolume < cfg.minQuoteVolume)
  | none => false

/-- `dailyData?.quoteVolume || 0` (lines 283, 290, 297, 304).  The JS `|| 0`
maps a missing record to 0 and leaves a present numeric value unchanged
(it also maps an exact 0 to 0, which is the identity). -/
def dailyQV (dailyData : Option Candle) : ℚ :=
  match dailyData with
  | some d => d.quoteVolume
  | none => 0

/-- The four detection blocks of `checkExchange`'s loop body
(lines 280-306), run when the liquidity filter did not `continue`. -/
def evalSymbol (cfg : Config) (exchange symbol : String)
    (hourData fourHourData : List Candle) (dqv : ℚ) : List ReportedSpike :=
  pushSpike (detectSpike hourData cfg.hourSpikeThreshold "hour") dqv exchange symbol ++
  pushSpike (detectMASpike hourData cfg.hourMaThreshold "hour-ma") dqv exchange symbol ++
  pushSpike (detectSpike fourHourData cfg.fourHourSpikeThreshold "fourhour")
    dqv exchange symbol ++
  pushSpike (detectMASpike fourHourData cfg.fourHourMaThreshold "fourhour-ma")
    dqv exchange symbol

/-- The loop body of `checkExchange` for one symbol (lines 266-311): the
kline and daily fetches are embedded as arguments; a per-symbol fetch
failure is the caller's concern (the oracle is total here). -/
def checkSymbol (cfg : Config) (exchange symbol : String)
    (hourData fourHourData : List Candle) (dailyData : Option Candle) :
    List ReportedSpike :=
  if belowFloor cfg dailyData then []
  else evalSymbol cfg exchange symbol hourData fourHourData (dailyQV dailyData)

/-- `checkExchange` (lines 263-314): runs the loop body over the batch and
collects the spikes in order. -/
def checkExchange (cfg : Config) (exchange : String) (symbols : List String)
    (fetch : String → List Candle × List Candle × Option Candle) :
    List ReportedSpike :=
  symbols.bind fun symbol =>
    let d := fetch symbol
    checkSymbol cfg exchange symbol d.1 d.2.1 d.2.2

/-- Every spike pushed carries the `dailyQuoteVolume` it was pushed with. -/
theorem mem_pushSpike_dqv (o : Option Finding) (dqv : ℚ) (ex sym : String)
    (r : ReportedSpike) (h : r ∈ pushSpike o dqv ex sym) :
    r.dailyQuoteVolume = dqv := by
  cases o with
  | none => simp [pushSpike] at h
  | some f =>
    simp [pushSpike] at h
    rw [h]

/-- The evaluation emits something exactly when one of the four detectors
fires. -/
theorem evalSymbol_ne_nil_iff (cfg : Config) (exchange symbol : String)
    (hourData fourHourData : List Candle) (dqv : ℚ) :
    evalSymbol cfg exchange symbol hourData fourHourData dqv ≠ [] ↔
      ((detectSpike hourData cfg.hourSpikeThreshold "hour").isSome = true ∨
       (detectMASpike hourData cfg.hourMaThreshold "hour-ma").isSome = true ∨
       (detectSpike fourHourData cfg.fourHourSpikeThreshold "fourhour").isSome = true ∨
       (detectMASpike fourHourData cfg.fourHourMaThreshold "fourhour-ma").isSome
         = true) := by
  unfold evalSymbol
  cases detectSpike hourData cfg.hourSpikeThreshold "hour" <;>
    cases detectMASpike hourData cfg.hourMaThreshold "hour-ma" <;>
    cases detectSpike fourHourData cfg.fourHourSpikeThreshold "fourhour" <;>
    cases detectMASpike fourHourData cfg.fourHourMaThreshold "fourhour-ma" <;>
    simp [pushSpike]

/-- Every spike the evaluation emits records the given daily quote
volume. -/
theorem mem_evalSymbol_dqv (cfg : Config) (exchange symbol : String)
    (hourData fourHourData : List Candle) (dqv : ℚ) (r : ReportedSpike)
    (h : r ∈ evalSymbol cfg exchange symbol hourData fourHourData dqv) :
    r.dailyQuoteVolume = dqv := by
  unfold evalSymbol at h
  rcases List.mem_append.mp h with h | h
  · rcases List.mem_append.mp h with h | h
    · rcases List.mem_append.mp h with h | h
      · exact mem_pushSpike_dqv _ _ _ _ _ h
      · exact mem_pushSpike_dqv _ _ _ _ _ h
    · exact mem_pushSpike_dqv _ _ _ _ _ h
  · exact mem_pushSpike_dqv _ _ _ _ _ h

/-- C10: when the daily-kline fetch failed (`dailyData = null`), the
liquidity filter is bypassed — the four detectors still run and their
findings are reported with `dailyQuoteVolume = 0`; the filter empties the
result only when daily data is present and below the floor, and when it is
present and at or above the floor the findings carry the fetched quote
volume. -/
theorem checkExchange_daily_filter_bypass (cfg : Config)
    (exchange symbol : String) (hourData fourHourData : List Candle) :
    (checkSymbol cfg exchange symbol hourData fourHourData none =
        evalSymbol cfg exchange symbol hourData fourHourData 0 ∧
      (checkSymbol cfg exchange symbol hourData fourHourData none ≠ [] ↔
        ((detectSpike hourData cfg.hourSpikeThreshold "hour").isSome = true ∨
         (detectMASpike hourData cfg.hourMaThreshold "hour-ma").isSome = true ∨
         (detectSpike fourHourData cfg.fourHourSpikeThreshold "fourhour").isSome
           = true ∨
         (detectMASpike fourHourData cfg.fourHourMaThreshold "fourhour-ma").isSome
           = true)) ∧
      (∀ r ∈ checkSymbol cfg exchange symbol hourData fourHourData none,
        r.dailyQuoteVolume = 0)) ∧
    (∀ d : Candle, d.quoteVolume < cfg.minQuoteVolume →
      checkSymbol cfg exchange symbol hourData fourHourData (some d) = []) ∧
    (∀ d : Candle, ¬ d.quoteVolume < cfg.minQuoteVolume →
      ∀ r ∈ checkSymbol cfg exchange symbol hourData fourHourData (some d),
        r.dailyQuoteVolume = d.quoteVolume) := by
  have hnone : checkSymbol cfg exchange symbol hourData fourHourData none =
      evalSymbol cfg exchange symbol hourData fourHourData 0 := rfl
  refine ⟨⟨hnone, ?_, ?_⟩, ?_, ?_⟩
  · rw [hnone]
    exact evalSymbol_ne_nil_iff cfg exchange symbol hourData fourHourData 0
  · rw [hnone]
    exact fun r hr => mem_evalSymbol_dqv cfg exchange symbol hourData fourHourData 0 r hr
  · intro d hd
    unfold checkSymbol
    rw [if_pos (by simp [belowFloor, hd])]
  · intro d hd r hr
    unfold checkSymbol at hr
    rw [if_neg (by simp [belowFloor, hd])] at hr
    exact mem_evalSymbol_dqv cfg exchange symbol hourData fourHourData _ r hr

/-- Witness for C10 at a concrete input: a missing daily kline with a
spiking hourly series still reports a finding, with daily quote volume 0. -/
theorem checkExchange_daily_filter_bypass_witness :
    checkSymbol config "binance" "BTCUSDT" (pairData 1 8) [] none ≠ [] ∧
    ∀ r ∈ checkSymbol config "binance" "BTCUSDT" (pairData 1 8) [] none,
      r.dailyQuoteVolume = 0 :=
  ⟨((checkExchange_daily_filter_bypass config "binance" "BTCUSDT"
      (pairData 1 8) []).1.2.1).mpr
    (Or.inl (by
      rw [detectSpike_isSome_iff _ _ _ (by norm_num [pairData])]
      rw [show ((pairData 1 8).getD ((pairData 1 8).length - 1) defaultCandle).volume
            = (8 : ℚ) from rfl,
          show ((pairData 1 8).getD ((pairData 1 8).length - 2) defaultCandle).volume
            = (1 : ℚ) from rfl]
      norm_num [config])),
   (checkExchange_daily_filter_bypass config "binance" "BTCUSDT"
      (pairData 1 8) []).1.2.2⟩

/-- Outcome of one `monitor()` invocation (lines 52-111): the state after
the run, whether `updateStateIndexes`/`saveState` were reached (line
102-104), and whether the spike notification branch was taken (line 84). -/
structure RunResult where
  finalState : TwoState
  stateSaved : Bool
  notified : Bool
  deriving Repr, DecidableEq

/-- The run orchestration of `monitor` (lines 52-111), starting after
`loadState`/`getAllSymbols` (the state argument is the post-refresh state;
the network is the `fetch` oracle).  Control flow embedded:
* a throw inside the `try` (here: the `TypeError` from
  `getSymbolsForThisRun`) is caught by the outer `catch` (line 106) and
  skips `updateStateIndexes`/`saveState`;
* when both selections are empty, `monitor` returns at line 73 before
  reaching `updateStateIndexes`/`saveState`;
* otherwise both the `allSpikes.length > 0` branch and the else branch
  (whose inner `try`/`catch`, lines 89-97, swallows its own
  `ReferenceError`s on the undefined `serverChan` and `message`
  identifiers) continue to `updateStateIndexes` and `saveState`
  (lines 102-104). -/
def monitor (st : TwoState) (cfg : Config)
    (fetch : String → String → List Candle × List Candle × Option Candle) :
    RunResult :=
  match getSymbolsForThisRun st cfg.pairsPerRun with
  | .error _ => { finalState := st, stateSaved := false, notified := false }
  | .ok (binanceSymbols, okxSymbols) =>
    if binanceSymbols.length = 0 ∧ okxSymbols.length = 0 then
      { finalState := st, stateSaved := false, notified := false }
    else
      let allSpikes :=
        checkExchange cfg "binance" binanceSymbols (fetch "binance") ++
        checkExchange cfg "okx" okxSymbols (fetch "okx")
      { finalState := updateStateIndexes st binanceSymbols.length okxSymbols.length
        stateSaved := true
        notified := 0 < allSpikes.length }

/-- A state with no cached symbols for either source. -/
def emptyState : TwoState :=
  { binance := { allSymbols := [], lastIndex := 0, lastRun := 0 }
    okx := { allSymbols := [], lastIndex := 0, lastRun := 0 } }

/-- A fetch oracle returning no candle data. -/
def noFetch : String → String → List Candle × List Candle × Option Candle :=
  fun _ _ => ([], [], none)

/-- C3 counterexample: an invocation with both symbol lists empty completes
(zero findings) but returns at line 73 before `updateStateIndexes` and
`saveState`, so not every completed invocation persists state. -/
theorem monitor_empty_selection_skips_save :
    (monitor emptyState config noFetch).stateSaved = false ∧
    (monitor emptyState config noFetch).finalState = emptyState :=
  ⟨rfl, rfl⟩

/-- C3 amended: every completed invocation whose selection succeeds and is
nonempty — whether it then finds zero or some spikes — reaches
`updateStateIndexes` (advancing the cursors by the consumed counts) and
`saveState`; an invocation whose selected batch is empty returns early
without persisting. -/
theorem monitor_nonempty_batch_persists (st : TwoState) (cfg : Config)
    (fetch : String → String → List Candle × List Candle × Option Candle)
    (bs os : List String)
    (hok : getSymbolsForThisRun st cfg.pairsPerRun = .ok (bs, os))
    (hne : 0 < bs.length + os.length) :
    (monitor st cfg fetch).stateSaved = true ∧
    (monitor st cfg fetch).finalState =
      updateStateIndexes st bs.length os.length := by
  unfold monitor
  rw [hok]
  dsimp only
  rw [if_neg (by omega)]
  exact ⟨rfl, rfl⟩

/-- Witness for C3's amended claim at a concrete state (binance holds the
whole batch, zero findings). -/
theorem monitor_nonempty_batch_persists_witness :
    (monitor scenarioState config noFetch).stateSaved = true ∧
    (monitor scenarioState config noFetch).finalState =
      updateStateIndexes scenarioState 4 0 :=
  monitor_nonempty_batch_persists scenarioState config noFetch
    ["A", "B", "C", "D"] [] (by rfl) (by decide)
